import Mathlib

/-!
Verification of the data-model and validation layer of the cultural event
manager (`app/models.py`).  The file defines, for each persisted table and
each request shape, a Lean structure holding the validated fields, together
with a checked constructor (`mkX`) that mirrors the pydantic field
validators attached to the fields (`max_length`, `min_length`, `ge`, `le`,
enum membership, defaults).  Wall-clock dependent defaults
(`default_factory=datetime.utcnow`) are modelled by an explicit `now`
argument; `datetime` values are modelled as `Nat` timestamps and `time`
values as hour/minute pairs.
-/

namespace CulturalEvents

/-- A pydantic `ValidationError`, carrying the offending field and a message. -/
inductive ValidationError where
  | err (field : String) (msg : String)
deriving DecidableEq

/-- Whether a validation result is a success. -/
def EOk {α : Type} : Except ValidationError α → Bool
  | .ok _ => true
  | .error _ => false

/-- `max_length=n` string validator. -/
def checkMaxLen (fld : String) (s : String) (n : Nat) : Except ValidationError String :=
  if s.length ≤ n then .ok s else .error (.err fld "string exceeds max length")

/-- `min_length=lo, max_length=hi` string validator. -/
def checkLenBetween (fld : String) (s : String) (lo hi : Nat) : Except ValidationError String :=
  if s.length < lo then .error (.err fld "string shorter than min length")
  else if s.length ≤ hi then .ok s
  else .error (.err fld "string exceeds max length")

/-- `ge=lo` numeric validator. -/
def checkGe (fld : String) (v lo : Int) : Except ValidationError Int :=
  if lo ≤ v then .ok v else .error (.err fld "value out of range")

/-- `ge=lo, le=hi` numeric validator. -/
def checkBetween (fld : String) (v lo hi : Int) : Except ValidationError Int :=
  if lo ≤ v ∧ v ≤ hi then .ok v else .error (.err fld "value out of range")

/-- `ge=lo` validator on an `Optional[int]` field: `None` passes, a present
value must satisfy the bound. -/
def checkOptGe (fld : String) (v? : Option Int) (lo : Int) :
    Except ValidationError (Option Int) :=
  match v? with
  | none => .ok none
  | some v =>
    match checkGe fld v lo with
    | .ok v => .ok (some v)
    | .error e => .error e

/-- `max_length=n` validator on an `Optional[str]` field. -/
def checkOptMaxLen (fld : String) (s? : Option String) (n : Nat) :
    Except ValidationError (Option String) :=
  match s? with
  | none => .ok none
  | some s =>
    match checkMaxLen fld s n with
    | .ok s => .ok (some s)
    | .error e => .error e

/-- The closed `StudentCategory` enum of `models.py`. -/
inductive StudentCategory where
  | subJunior
  | junior
  | senior
  | superSenior
deriving DecidableEq

/-- The string value backing each `StudentCategory` member. -/
def StudentCategory.toStr : StudentCategory → String
  | .subJunior => "Sub Junior"
  | .junior => "Junior"
  | .senior => "Senior"
  | .superSenior => "Super Senior"

/-- Coercion of a raw string into the `StudentCategory` enum: exactly the
four backing values are accepted. -/
def StudentCategory.ofString? (s : String) : Option StudentCategory :=
  if s = "Sub Junior" then some .subJunior
  else if s = "Junior" then some .junior
  else if s = "Senior" then some .senior
  else if s = "Super Senior" then some .superSenior
  else none

/-- Validator for a raw category input: omitted (`none`) falls back to the
declared default `SUB_JUNIOR`; a present string must be one of the enum's
backing values. -/
def parseCategoryDefault (s? : Option String) : Except ValidationError StudentCategory :=
  match s? with
  | none => .ok .subJunior
  | some s =>
    match StudentCategory.ofString? s with
    | some c => .ok c
    | none => .error (.err "category" "invalid enum value")

/-- Validator for an `Optional[StudentCategory]` raw input (`StudentUpdate`):
omitted stays `none`; a present string must be a valid enum value. -/
def parseCategoryOpt (s? : Option String) : Except ValidationError (Option StudentCategory) :=
  match s? with
  | none => .ok none
  | some s =>
    match StudentCategory.ofString? s with
    | some c => .ok (some c)
    | none => .error (.err "category" "invalid enum value")

/-- Persisted `students` row. -/
structure Student where
  id : Option Int
  name : String
  class_name : String
  category : StudentCategory
  is_active : Bool
  created_at : Nat
deriving DecidableEq

/-- Checked construction of a `Student` row: `name` (`max_length=100`),
`class_name` (`max_length=50`), `category` defaults to `SUB_JUNIOR`,
`is_active` defaults to `True`, `created_at` defaults to the clock. -/
def mkStudent (id : Option Int) (name class_name : String) (category? : Option String)
    (is_active? : Option Bool) (now : Nat) : Except ValidationError Student :=
  match checkMaxLen "name" name 100 with
  | .error e => .error e
  | .ok name =>
    match checkMaxLen "class_name" class_name 50 with
    | .error e => .error e
    | .ok class_name =>
      match parseCategoryDefault category? with
      | .error e => .error e
      | .ok category => .ok ⟨id, name, class_name, category, is_active?.getD true, now⟩

/-- `StudentCreate` request shape. -/
structure StudentCreate where
  name : String
  class_name : String
  category : StudentCategory
deriving DecidableEq

/-- Checked construction of a `StudentCreate`. -/
def mkStudentCreate (name class_name : String) (category? : Option String) :
    Except ValidationError StudentCreate :=
  match checkMaxLen "name" name 100 with
  | .error e => .error e
  | .ok name =>
    match checkMaxLen "class_name" class_name 50 with
    | .error e => .error e
    | .ok class_name =>
      match parseCategoryDefault category? with
      | .error e => .error e
      | .ok category => .ok ⟨name, class_name, category⟩

/-- `StudentUpdate` sparse request shape: every field optional, `None`
meaning "leave unchanged". -/
structure StudentUpdate where
  name : Option String
  class_name : Option String
  category : Option StudentCategory
  is_active : Option Bool
deriving DecidableEq

/-- Checked construction of a `StudentUpdate`. -/
def mkStudentUpdate (name? class_name? : Option String) (category? : Option String)
    (is_active? : Option Bool) : Except ValidationError StudentUpdate :=
  match checkOptMaxLen "name" name? 100 with
  | .error e => .error e
  | .ok name? =>
    match checkOptMaxLen "class_name" class_name? 50 with
    | .error e => .error e
    | .ok class_name? =>
      match parseCategoryOpt category? with
      | .error e => .error e
      | .ok category? => .ok ⟨name?, class_name?, category?, is_active?⟩

/-- Persisted `admins` row. -/
structure Admin where
  id : Option Int
  username : String
  password_hash : String
  name : String
  email : String
  is_active : Bool
  created_at : Nat
deriving DecidableEq

/-- `AdminCreate` request shape: `username` (`max_length=50`), raw `password`
(`min_length=6, max_length=100`), `name` (`max_length=100`), `email`
(`max_length=255`). -/
structure AdminCreate where
  username : String
  password : String
  name : String
  email : String
deriving DecidableEq

/-- Checked construction of an `AdminCreate`. -/
def mkAdminCreate (username password name email : String) :
    Except ValidationError AdminCreate :=
  match checkMaxLen "username" username 50 with
  | .error e => .error e
  | .ok username =>
    match checkLenBetween "password" password 6 100 with
    | .error e => .error e
    | .ok password =>
      match checkMaxLen "name" name 100 with
      | .error e => .error e
      | .ok name =>
        match checkMaxLen "email" email 255 with
        | .error e => .error e
        | .ok email => .ok ⟨username, password, name, email⟩

/-- `AdminUpdate` sparse request shape. -/
structure AdminUpdate where
  name : Option String
  email : Option String
  is_active : Option Bool
deriving DecidableEq

/-- Checked construction of an `AdminUpdate`. -/
def mkAdminUpdate (name? email? : Option String) (is_active? : Option Bool) :
    Except ValidationError AdminUpdate :=
  match checkOptMaxLen "name" name? 100 with
  | .error e => .error e
  | .ok name? =>
    match checkOptMaxLen "email" email? 255 with
    | .error e => .error e
    | .ok email? => .ok ⟨name?, email?, is_active?⟩

/-- `AdminLogin` request shape: `username` (`max_length=50`), `password`
(`max_length=100`, no minimum). -/
structure AdminLogin where
  username : String
  password : String
deriving DecidableEq

/-- Checked construction of an `AdminLogin`. -/
def mkAdminLogin (username password : String) : Except ValidationError AdminLogin :=
  match checkMaxLen "username" username 50 with
  | .error e => .error e
  | .ok username =>
    match checkMaxLen "password" password 100 with
    | .error e => .error e
    | .ok password => .ok ⟨username, password⟩

/-- Persisted `events` row. -/
structure Event where
  id : Option Int
  name : String
  category : String
  max_participants : Option Int
  priority : Int
  average_time_minutes : Int
  description : String
  is_active : Bool
  created_at : Nat
deriving DecidableEq

/-- Checked construction of an `Event` row: `name` (`max_length=200`),
`category` (`max_length=100`), `max_participants` (`ge=1` when present),
`priority` (`default=1, ge=1, le=10`), `average_time_minutes`
(`default=30, ge=1`), `description` (`default="", max_length=1000`),
`is_active` defaults to `True`, `created_at` defaults to the clock. -/
def mkEvent (id : Option Int) (name category : String) (max_participants? : Option Int)
    (priority? average_time_minutes? : Option Int) (description? : Option String)
    (is_active? : Option Bool) (now : Nat) : Except ValidationError Event :=
  match checkMaxLen "name" name 200 with
  | .error e => .error e
  | .ok name =>
    match checkMaxLen "category" category 100 with
    | .error e => .error e
    | .ok category =>
      match checkOptGe "max_participants" max_participants? 1 with
      | .error e => .error e
      | .ok max_participants =>
        match checkBetween "priority" (priority?.getD 1) 1 10 with
        | .error e => .error e
        | .ok priority =>
          match checkGe "average_time_minutes" (average_time_minutes?.getD 30) 1 with
          | .error e => .error e
          | .ok average_time_minutes =>
            match checkMaxLen "description" (description?.getD "") 1000 with
            | .error e => .error e
            | .ok description =>
              .ok ⟨id, name, category, max_participants, priority,
                   average_time_minutes, description, is_active?.getD true, now⟩

/-- `EventCreate` request shape. -/
structure EventCreate where
  name : String
  category : String
  max_participants : Option Int
  priority : Int
  average_time_minutes : Int
  description : String
deriving DecidableEq

/-- Checked construction of an `EventCreate`. -/
def mkEventCreate (name category : String) (max_participants? : Option Int)
    (priority? average_time_minutes? : Option Int) (description? : Option String) :
    Except ValidationError EventCreate :=
  match checkMaxLen "name" name 200 with
  | .error e => .error e
  | .ok name =>
    match checkMaxLen "category" category 100 with
    | .error e => .error e
    | .ok category =>
      match checkOptGe "max_participants" max_participants? 1 with
      | .error e => .error e
      | .ok max_participants =>
        match checkBetween "priority" (priority?.getD 1) 1 10 with
        | .error e => .error e
        | .ok priority =>
          match checkGe "average_time_minutes" (average_time_minutes?.getD 30) 1 with
          | .error e => .error e
          | .ok average_time_minutes =>
            match checkMaxLen "description" (description?.getD "") 1000 with
            | .error e => .error e
            | .ok description =>
              .ok ⟨name, category, max_participants, priority,
                   average_time_minutes, description⟩

/-- Persisting a validated `EventCreate`: the database assigns `id`, the
declared defaults fill `is_active = True` and `created_at = now`. -/
def Event.fromCreate (c : EventCreate) (id : Option Int) (now : Nat) : Event :=
  ⟨id, c.name, c.category, c.max_participants, c.priority,
   c.average_time_minutes, c.description, true, now⟩

/-- `EventUpdate` sparse request shape. -/
structure EventUpdate where
  name : Option String
  category : Option String
  max_participants : Option Int
  priority : Option Int
  average_time_minutes : Option Int
  description : Option String
  is_active : Option Bool
deriving DecidableEq

/-- `ge=lo, le=hi` validator on an `Optional[int]` field. -/
def checkOptBetween (fld : String) (v? : Option Int) (lo hi : Int) :
    Except ValidationError (Option Int) :=
  match v? with
  | none => .ok none
  | some v =>
    match checkBetween fld v lo hi with
    | .ok v => .ok (some v)
    | .error e => .error e

/-- Checked construction of an `EventUpdate`. -/
def mkEventUpdate (name? category? : Option String) (max_participants? : Option Int)
    (priority? average_time_minutes? : Option Int) (description? : Option String)
    (is_active? : Option Bool) : Except ValidationError EventUpdate :=
  match checkOptMaxLen "name" name? 200 with
  | .error e => .error e
  | .ok name? =>
    match checkOptMaxLen "category" category? 100 with
    | .error e => .error e
    | .ok category? =>
      match checkOptGe "max_participants" max_participants? 1 with
      | .error e => .error e
      | .ok max_participants? =>
        match checkOptBetween "priority" priority? 1 10 with
        | .error e => .error e
        | .ok priority? =>
          match checkOptGe "average_time_minutes" average_time_minutes? 1 with
          | .error e => .error e
          | .ok average_time_minutes? =>
            match checkOptMaxLen "description" description? 1000 with
            | .error e => .error e
            | .ok description? =>
              .ok ⟨name?, category?, max_participants?, priority?,
                   average_time_minutes?, description?, is_active?⟩

/-- Persisted `event_participants` row.  The model declares plain integer
foreign keys and no field-level constraints; the comment above
`__table_args__` announces a unique constraint on `(student_id, event_id)`
but `__table_args__` only sets `extend_existing`. -/
structure EventParticipant where
  id : Option Int
  student_id : Int
  event_id : Int
  assigned_by_admin_id : Int
  assigned_at : Nat
deriving DecidableEq

/-- Checked construction of an `EventParticipant` row: the model attaches no
field validator, so every well-typed input is accepted. -/
def mkEventParticipant (id : Option Int) (student_id event_id assigned_by_admin_id : Int)
    (now : Nat) : Except ValidationError EventParticipant :=
  .ok ⟨id, student_id, event_id, assigned_by_admin_id, now⟩

/-- A Python `datetime.time` value, modelled as hour and minute of day. -/
structure Time where
  hour : Nat
  minute : Nat
deriving DecidableEq

/-- Minutes since midnight, the order on `Time` values. -/
def Time.toMinutes (t : Time) : Nat := t.hour * 60 + t.minute

/-- Persisted `schedule_slots` row. -/
structure ScheduleSlot where
  id : Option Int
  schedule_id : Int
  event_id : Int
  start_time : Time
  end_time : Time
  venue : String
  notes : String
  order_index : Int
  created_at : Nat
deriving DecidableEq

/-- Checked construction of a `ScheduleSlot` row: `venue`
(`default="", max_length=200`), `notes` (`default="", max_length=500`),
`order_index` (`default=0, ge=0`); no constraint relates `start_time` and
`end_time`. -/
def mkScheduleSlot (id : Option Int) (schedule_id event_id : Int)
    (start_time end_time : Time) (venue? notes? : Option String)
    (order_index? : Option Int) (now : Nat) : Except ValidationError ScheduleSlot :=
  match checkMaxLen "venue" (venue?.getD "") 200 with
  | .error e => .error e
  | .ok venue =>
    match checkMaxLen "notes" (notes?.getD "") 500 with
    | .error e => .error e
    | .ok notes =>
      match checkGe "order_index" (order_index?.getD 0) 0 with
      | .error e => .error e
      | .ok order_index =>
        .ok ⟨id, schedule_id, event_id, start_time, end_time, venue, notes,
             order_index, now⟩

/-- `ScheduleSlotCreate` request shape. -/
structure ScheduleSlotCreate where
  schedule_id : Int
  event_id : Int
  start_time : Time
  end_time : Time
  venue : String
  notes : String
  order_index : Int
deriving DecidableEq

/-- Checked construction of a `ScheduleSlotCreate`. -/
def mkScheduleSlotCreate (schedule_id event_id : Int) (start_time end_time : Time)
    (venue? notes? : Option String) (order_index? : Option Int) :
    Except ValidationError ScheduleSlotCreate :=
  match checkMaxLen "venue" (venue?.getD "") 200 with
  | .error e => .error e
  | .ok venue =>
    match checkMaxLen "notes" (notes?.getD "") 500 with
    | .error e => .error e
    | .ok notes =>
      match checkGe "order_index" (order_index?.getD 0) 0 with
      | .error e => .error e
      | .ok order_index =>
        .ok ⟨schedule_id, event_id, start_time, end_time, venue, notes, order_index⟩

/-- `ScheduleSlotUpdate` sparse request shape. -/
structure ScheduleSlotUpdate where
  start_time : Option Time
  end_time : Option Time
  venue : Option String
  notes : Option String
  order_index : Option Int
deriving DecidableEq

/-- Checked construction of a `ScheduleSlotUpdate`. -/
def mkScheduleSlotUpdate (start_time? end_time? : Option Time)
    (venue? notes? : Option String) (order_index? : Option Int) :
    Except ValidationError ScheduleSlotUpdate :=
  match checkOptMaxLen "venue" venue? 200 with
  | .error e => .error e
  | .ok venue? =>
    match checkOptMaxLen "notes" notes? 500 with
    | .error e => .error e
    | .ok notes? =>
      match checkOptGe "order_index" order_index? 0 with
      | .error e => .error e
      | .ok order_index? =>
        .ok ⟨start_time?, end_time?, venue?, notes?, order_index?⟩

/-- Modelled from the spec: the service layer that applies an `AdminUpdate`
to a persisted `Admin` is not in this excerpt; the spec states that sparse
Update shapes mutate entities so that "only provided fields change". -/
def applyAdminUpdate (a : Admin) (u : AdminUpdate) : Admin :=
  ⟨a.id, a.username, a.password_hash, u.name.getD a.name, u.email.getD a.email,
   u.is_active.getD a.is_active, a.created_at⟩

/-- Modelled from the spec: application of a `StudentUpdate` to a persisted
`Student`; only provided fields change. -/
def applyStudentUpdate (s : Student) (u : StudentUpdate) : Student :=
  ⟨s.id, u.name.getD s.name, u.class_name.getD s.class_name,
   u.category.getD s.category, u.is_active.getD s.is_active, s.created_at⟩

/-- Modelled from the spec: application of an `EventUpdate` to a persisted
`Event`; only provided fields change. -/
def applyEventUpdate (e : Event) (u : EventUpdate) : Event :=
  ⟨e.id, u.name.getD e.name, u.category.getD e.category,
   (u.max_participants.map some).getD e.max_participants,
   u.priority.getD e.priority,
   u.average_time_minutes.getD e.average_time_minutes,
   u.description.getD e.description, u.is_active.getD e.is_active, e.created_at⟩

/-- Modelled from the spec: application of a `ScheduleSlotUpdate` to a
persisted `ScheduleSlot`; only provided fields change. -/
def applyScheduleSlotUpdate (s : ScheduleSlot) (u : ScheduleSlotUpdate) : ScheduleSlot :=
  ⟨s.id, s.schedule_id, s.event_id, u.start_time.getD s.start_time,
   u.end_time.getD s.end_time, u.venue.getD s.venue, u.notes.getD s.notes,
   u.order_index.getD s.order_index, s.created_at⟩

theorem checkMaxLen_ok_of_le {fld s : String} {n : Nat} (h : s.length ≤ n) :
    checkMaxLen fld s n = .ok s := by
  unfold checkMaxLen
  exact if_pos h

theorem checkLenBetween_ok {fld s : String} {lo hi : Nat} (h1 : lo ≤ s.length)
    (h2 : s.length ≤ hi) : checkLenBetween fld s lo hi = .ok s := by
  unfold checkLenBetween
  rw [if_neg (by omega), if_pos h2]

theorem checkLenBetween_err_short {fld s : String} {lo hi : Nat} (h : s.length < lo) :
    checkLenBetween fld s lo hi = .error (.err fld "string shorter than min length") := by
  unfold checkLenBetween
  exact if_pos h

theorem checkGe_ok {fld : String} {v lo x : Int} (h : checkGe fld v lo = .ok x) :
    lo ≤ x := by
  unfold checkGe at h
  split at h
  case isTrue hc =>
    cases h
    exact hc
  case isFalse hc =>
    cases h

theorem checkGe_err {fld : String} {v lo : Int} (h : v < lo) :
    checkGe fld v lo = .error (.err fld "value out of range") := by
  unfold checkGe
  exact if_neg (by omega)

theorem checkBetween_ok {fld : String} {v lo hi x : Int}
    (h : checkBetween fld v lo hi = .ok x) : lo ≤ x ∧ x ≤ hi := by
  unfold checkBetween at h
  split at h
  case isTrue hc =>
    cases h
    exact hc
  case isFalse hc =>
    cases h

theorem checkBetween_err {fld : String} {v lo hi : Int} (h : v < lo ∨ hi < v) :
    checkBetween fld v lo hi = .error (.err fld "value out of range") := by
  unfold checkBetween
  exact if_neg (by omega)

theorem checkOptGe_ok {fld : String} {v? w : Option Int} {lo : Int}
    (h : checkOptGe fld v? lo = .ok w) : ∀ x, w = some x → lo ≤ x := by
  intro x hx
  unfold checkOptGe at h
  match v? with
  | none =>
    cases h
    cases hx
  | some v =>
    simp only at h
    cases hv : checkGe fld v lo with
    | ok y =>
      rw [hv] at h
      cases h
      cases hx
      exact checkGe_ok hv
    | error e =>
      rw [hv] at h
      cases h

/-- C1: every `StudentCategory` value backing a `Student` record is one of
exactly "Sub Junior", "Junior", "Senior", "Super Senior", and constructing a
`Student`, `StudentCreate` or `StudentUpdate` with any other category string
is rejected with a validation error. -/
theorem student_category_closed (c : StudentCategory) (s : String)
    (h1 : s ≠ "Sub Junior") (h2 : s ≠ "Junior") (h3 : s ≠ "Senior")
    (h4 : s ≠ "Super Senior") :
    (c.toStr = "Sub Junior" ∨ c.toStr = "Junior" ∨ c.toStr = "Senior" ∨
      c.toStr = "Super Senior")
    ∧ (∀ id name cn act now, EOk (mkStudent id name cn (some s) act now) = false)
    ∧ (∀ name cn, EOk (mkStudentCreate name cn (some s)) = false)
    ∧ (∀ n? c? a?, EOk (mkStudentUpdate n? c? (some s) a?) = false) := by
  have hnone : StudentCategory.ofString? s = none := by
    simp [StudentCategory.ofString?, h1, h2, h3, h4]
  refine ⟨?_, ?_, ?_, ?_⟩
  · cases c <;> simp [StudentCategory.toStr]
  · intro id name cn act now
    unfold mkStudent
    split
    · simp [EOk]
    · split
      · simp [EOk]
      · simp [parseCategoryDefault, hnone, EOk]
  · intro name cn
    unfold mkStudentCreate
    split
    · simp [EOk]
    · split
      · simp [EOk]
      · simp [parseCategoryDefault, hnone, EOk]
  · intro n? c? a?
    unfold mkStudentUpdate
    split
    · simp [EOk]
    · split
      · simp [EOk]
      · simp [parseCategoryOpt, hnone, EOk]

theorem student_category_closed_witness :
    EOk (mkStudentCreate "Ann" "5A" (some "Adult")) = false :=
  (student_category_closed .junior "Adult" (by decide) (by decide) (by decide)
    (by decide)).2.2.1 "Ann" "5A"

/-- C9: omitting the category yields the default `SUB_JUNIOR` for both
`StudentCreate` and the persisted `Student` model. -/
theorem student_category_default (name cn : String) (hn : name.length ≤ 100)
    (hc : cn.length ≤ 50) :
    mkStudentCreate name cn none = .ok ⟨name, cn, .subJunior⟩
    ∧ ∀ id act now, mkStudent id name cn none act now =
        .ok ⟨id, name, cn, .subJunior, act.getD true, now⟩ := by
  constructor
  · simp only [mkStudentCreate, checkMaxLen_ok_of_le hn, checkMaxLen_ok_of_le hc,
      parseCategoryDefault]
  · intro id act now
    simp only [mkStudent, checkMaxLen_ok_of_le hn, checkMaxLen_ok_of_le hc,
      parseCategoryDefault]

theorem student_category_default_witness :
    mkStudentCreate "Ann" "5A" none = .ok ⟨"Ann", "5A", .subJunior⟩ :=
  (student_category_default "Ann" "5A" (by decide) (by decide)).1

/-- C3: an `AdminCreate` whose password is shorter than 6 characters is
rejected, while one with a 6-to-100-character password and in-bound other
fields is accepted. -/
theorem adminCreate_password_length :
    (∀ u p n e, p.length < 6 → EOk (mkAdminCreate u p n e) = false)
    ∧ (∀ u p n e, u.length ≤ 50 → 6 ≤ p.length → p.length ≤ 100 →
        n.length ≤ 100 → e.length ≤ 255 →
        mkAdminCreate u p n e = .ok ⟨u, p, n, e⟩) := by
  constructor
  · intro u p n e hp
    unfold mkAdminCreate
    split
    · simp [EOk]
    · simp [checkLenBetween_err_short hp, EOk]
  · intro u p n e hu hp1 hp2 hn he
    simp only [mkAdminCreate, checkMaxLen_ok_of_le hu, checkLenBetween_ok hp1 hp2,
      checkMaxLen_ok_of_le hn, checkMaxLen_ok_of_le he]

theorem adminCreate_password_length_witness :
    EOk (mkAdminCreate "boss" "12345" "Boss" "boss@x.io") = false
    ∧ mkAdminCreate "boss" "123456" "Boss" "boss@x.io" =
        .ok ⟨"boss", "123456", "Boss", "boss@x.io"⟩ :=
  ⟨adminCreate_password_length.1 "boss" "12345" "Boss" "boss@x.io" (by decide),
   adminCreate_password_length.2 "boss" "123456" "Boss" "boss@x.io" (by decide)
     (by decide) (by decide) (by decide) (by decide)⟩

/-- C8: `AdminLogin` imposes no minimum password length, only `max_length=100`:
every password of length at most 100 (with an in-bound username) is accepted,
including the empty password, which `AdminCreate` rejects. -/
theorem adminLogin_no_min_password (u p : String) (hu : u.length ≤ 50)
    (hp : p.length ≤ 100) :
    mkAdminLogin u p = .ok ⟨u, p⟩
    ∧ EOk (mkAdminLogin "admin" "") = true
    ∧ EOk (mkAdminCreate "admin" "" "Name" "a@b.io") = false := by
  refine ⟨?_, by decide, by decide⟩
  simp only [mkAdminLogin, checkMaxLen_ok_of_le hu, checkMaxLen_ok_of_le hp]

theorem adminLogin_no_min_password_witness :
    mkAdminLogin "admin" "" = .ok ⟨"admin", ""⟩ :=
  (adminLogin_no_min_password "admin" "" (by decide) (by decide)).1

/-- C2: every constructed `Event` or `EventCreate` satisfies
`1 ≤ priority ≤ 10` and `average_time_minutes ≥ 1`; a priority outside
`[1,10]` or an `average_time_minutes < 1` is rejected with a validation
error at construction time. -/
theorem event_bounds :
    (∀ name category mp p? a? d? c,
        mkEventCreate name category mp p? a? d? = .ok c →
        1 ≤ c.priority ∧ c.priority ≤ 10 ∧ 1 ≤ c.average_time_minutes)
    ∧ (∀ id name category mp p? a? d? act now e,
        mkEvent id name category mp p? a? d? act now = .ok e →
        1 ≤ e.priority ∧ e.priority ≤ 10 ∧ 1 ≤ e.average_time_minutes)
    ∧ (∀ name category mp a? d? p, (p < 1 ∨ 10 < p) →
        EOk (mkEventCreate name category mp (some p) a? d?) = false)
    ∧ (∀ name category mp p? d? a, a < 1 →
        EOk (mkEventCreate name category mp p? (some a) d?) = false)
    ∧ (∀ id name category mp a? d? act now p, (p < 1 ∨ 10 < p) →
        EOk (mkEvent id name category mp (some p) a? d? act now) = false)
    ∧ (∀ id name category mp p? d? act now a, a < 1 →
        EOk (mkEvent id name category mp p? (some a) d? act now) = false) := by
  refine ⟨?_, ?_, ?_, ?_, ?_, ?_⟩
  · intro name category mp p? a? d? c h
    unfold mkEventCreate at h
    cases h1 : checkMaxLen "name" name 200 <;> rw [h1] at h
    case error => cases h
    cases h2 : checkMaxLen "category" category 100 <;> rw [h2] at h
    case error => cases h
    cases h3 : checkOptGe "max_participants" mp 1 <;> rw [h3] at h
    case error => cases h
    cases h4 : checkBetween "priority" (p?.getD 1) 1 10 <;> rw [h4] at h
    case error => cases h
    cases h5 : checkGe "average_time_minutes" (a?.getD 30) 1 <;> rw [h5] at h
    case error => cases h
    cases h6 : checkMaxLen "description" (d?.getD "") 1000 <;> rw [h6] at h
    case error => cases h
    cases h
    exact ⟨(checkBetween_ok h4).1, (checkBetween_ok h4).2, checkGe_ok h5⟩
  · intro id name category mp p? a? d? act now e h
    unfold mkEvent at h
    cases h1 : checkMaxLen "name" name 200 <;> rw [h1] at h
    case error => cases h
    cases h2 : checkMaxLen "category" category 100 <;> rw [h2] at h
    case error => cases h
    cases h3 : checkOptGe "max_participants" mp 1 <;> rw [h3] at h
    case error => cases h
    cases h4 : checkBetween "priority" (p?.getD 1) 1 10 <;> rw [h4] at h
    case error => cases h
    cases h5 : checkGe "average_time_minutes" (a?.getD 30) 1 <;> rw [h5] at h
    case error => cases h
    cases h6 : checkMaxLen "description" (d?.getD "") 1000 <;> rw [h6] at h
    case error => cases h
    cases h
    exact ⟨(checkBetween_ok h4).1, (checkBetween_ok h4).2, checkGe_ok h5⟩
  · intro name category mp a? d? p hp
    unfold mkEventCreate
    cases h1 : checkMaxLen "name" name 200
    case error => rfl
    cases h2 : checkMaxLen "category" category 100
    case error => rfl
    cases h3 : checkOptGe "max_participants" mp 1
    case error => rfl
    have hb : checkBetween "priority" ((some p).getD 1) 1 10 =
        .error (.err "priority" "value out of range") := by
      simp only [Option.getD_some]
      exact checkBetween_err hp
    rw [hb]
    rfl
  · intro name category mp p? d? a ha
    unfold mkEventCreate
    cases h1 : checkMaxLen "name" name 200
    case error => rfl
    cases h2 : checkMaxLen "category" category 100
    case error => rfl
    cases h3 : checkOptGe "max_participants" mp 1
    case error => rfl
    cases h4 : checkBetween "priority" (p?.getD 1) 1 10
    case error => rfl
    have hg : checkGe "average_time_minutes" ((some a).getD 30) 1 =
        .error (.err "average_time_minutes" "value out of range") := by
      simp only [Option.getD_some]
      exact checkGe_err ha
    rw [hg]
    rfl
  · intro id name category mp a? d? act now p hp
    unfold mkEvent
    cases h1 : checkMaxLen "name" name 200
    case error => rfl
    cases h2 : checkMaxLen "category" category 100
    case error => rfl
    cases h3 : checkOptGe "max_participants" mp 1
    case error => rfl
    have hb : checkBetween "priority" ((some p).getD 1) 1 10 =
        .error (.err "priority" "value out of range") := by
      simp only [Option.getD_some]
      exact checkBetween_err hp
    rw [hb]
    rfl
  · intro id name category mp p? d? act now a ha
    unfold mkEvent
    cases h1 : checkMaxLen "name" name 200
    case error => rfl
    cases h2 : checkMaxLen "category" category 100
    case error => rfl
    cases h3 : checkOptGe "max_participants" mp 1
    case error => rfl
    cases h4 : checkBetween "priority" (p?.getD 1) 1 10
    case error => rfl
    have hg : checkGe "average_time_minutes" ((some a).getD 30) 1 =
        .error (.err "average_time_minutes" "value out of range") := by
      simp only [Option.getD_some]
      exact checkGe_err ha
    rw [hg]
    rfl

theorem event_bounds_witness :
    (1 ≤ (⟨"Chess", "Game", none, 5, 20, ""⟩ : EventCreate).priority
      ∧ (⟨"Chess", "Game", none, 5, 20, ""⟩ : EventCreate).priority ≤ 10
      ∧ 1 ≤ (⟨"Chess", "Game", none, 5, 20, ""⟩ : EventCreate).average_time_minutes)
    ∧ EOk (mkEventCreate "Chess" "Game" none (some 11) none none) = false
    ∧ EOk (mkEventCreate "Chess" "Game" none none (some 0) none) = false :=
  ⟨event_bounds.1 "Chess" "Game" none (some 5) (some 20) none
      ⟨"Chess", "Game", none, 5, 20, ""⟩ rfl,
   event_bounds.2.2.1 "Chess" "Game" none none none 11 (by decide),
   event_bounds.2.2.2.1 "Chess" "Game" none none none 0 (by decide)⟩

/-- C4: every constructed `ScheduleSlot`, `ScheduleSlotCreate` or
`ScheduleSlotUpdate` has `order_index ≥ 0`; a negative `order_index` is
rejected, and an omitted `order_index` defaults to `0` on creation. -/
theorem scheduleSlot_order_index :
    (∀ id sid eid st et v? n? oi? now s,
        mkScheduleSlot id sid eid st et v? n? oi? now = .ok s → 0 ≤ s.order_index)
    ∧ (∀ sid eid st et v? n? oi? s,
        mkScheduleSlotCreate sid eid st et v? n? oi? = .ok s → 0 ≤ s.order_index)
    ∧ (∀ st? et? v? n? oi? u x,
        mkScheduleSlotUpdate st? et? v? n? oi? = .ok u → u.order_index = some x →
        0 ≤ x)
    ∧ (∀ id sid eid st et v? n? now oi, oi < 0 →
        EOk (mkScheduleSlot id sid eid st et v? n? (some oi) now) = false)
    ∧ (∀ sid eid st et v? n? oi, oi < 0 →
        EOk (mkScheduleSlotCreate sid eid st et v? n? (some oi)) = false)
    ∧ (∀ st? et? v? n? oi, oi < 0 →
        EOk (mkScheduleSlotUpdate st? et? v? n? (some oi)) = false)
    ∧ (∀ sid eid st et v? n? s,
        mkScheduleSlotCreate sid eid st et v? n? none = .ok s →
        s.order_index = 0) := by
  refine ⟨?_, ?_, ?_, ?_, ?_, ?_, ?_⟩
  · intro id sid eid st et v? n? oi? now s h
    unfold mkScheduleSlot at h
    cases h1 : checkMaxLen "venue" (v?.getD "") 200 <;> rw [h1] at h
    case error => cases h
    cases h2 : checkMaxLen "notes" (n?.getD "") 500 <;> rw [h2] at h
    case error => cases h
    cases h3 : checkGe "order_index" (oi?.getD 0) 0 <;> rw [h3] at h
    case error => cases h
    cases h
    exact checkGe_ok h3
  · intro sid eid st et v? n? oi? s h
    unfold mkScheduleSlotCreate at h
    cases h1 : checkMaxLen "venue" (v?.getD "") 200 <;> rw [h1] at h
    case error => cases h
    cases h2 : checkMaxLen "notes" (n?.getD "") 500 <;> rw [h2] at h
    case error => cases h
    cases h3 : checkGe "order_index" (oi?.getD 0) 0 <;> rw [h3] at h
    case error => cases h
    cases h
    exact checkGe_ok h3
  · intro st? et? v? n? oi? u x h hx
    unfold mkScheduleSlotUpdate at h
    cases h1 : checkOptMaxLen "venue" v? 200 <;> rw [h1] at h
    case error => cases h
    cases h2 : checkOptMaxLen "notes" n? 500 <;> rw [h2] at h
    case error => cases h
    cases h3 : checkOptGe "order_index" oi? 0 <;> rw [h3] at h
    case error => cases h
    cases h
    exact checkOptGe_ok h3 x hx
  · intro id sid eid st et v? n? now oi hoi
    unfold mkScheduleSlot
    cases h1 : checkMaxLen "venue" (v?.getD "") 200
    case error => rfl
    cases h2 : checkMaxLen "notes" (n?.getD "") 500
    case error => rfl
    have hg : checkGe "order_index" ((some oi).getD 0) 0 =
        .error (.err "order_index" "value out of range") := by
      simp only [Option.getD_some]
      exact checkGe_err hoi
    rw [hg]
    rfl
  · intro sid eid st et v? n? oi hoi
    unfold mkScheduleSlotCreate
    cases h1 : checkMaxLen "venue" (v?.getD "") 200
    case error => rfl
    cases h2 : checkMaxLen "notes" (n?.getD "") 500
    case error => rfl
    have hg : checkGe "order_index" ((some oi).getD 0) 0 =
        .error (.err "order_index" "value out of range") := by
      simp only [Option.getD_some]
      exact checkGe_err hoi
    rw [hg]
    rfl
  · intro st? et? v? n? oi hoi
    unfold mkScheduleSlotUpdate
    cases h1 : checkOptMaxLen "venue" v? 200
    case error => rfl
    cases h2 : checkOptMaxLen "notes" n? 500
    case error => rfl
    have hg : checkOptGe "order_index" (some oi) 0 =
        .error (.err "order_index" "value out of range") := by
      simp [checkOptGe, checkGe_err hoi]
    rw [hg]
    rfl
  · intro sid eid st et v? n? s h
    unfold mkScheduleSlotCreate at h
    cases h1 : checkMaxLen "venue" (v?.getD "") 200 <;> rw [h1] at h
    case error => cases h
    cases h2 : checkMaxLen "notes" (n?.getD "") 500 <;> rw [h2] at h
    case error => cases h
    have h3 : checkGe "order_index" ((none : Option Int).getD 0) 0 = .ok 0 := rfl
    rw [h3] at h
    cases h
    rfl

theorem scheduleSlot_order_index_witness :
    0 ≤ (⟨1, 2, ⟨9, 0⟩, ⟨10, 0⟩, "", "", 3⟩ : ScheduleSlotCreate).order_index
    ∧ EOk (mkScheduleSlotCreate 1 2 ⟨9, 0⟩ ⟨10, 0⟩ none none (some (-1))) = false
    ∧ (⟨1, 2, ⟨9, 0⟩, ⟨10, 0⟩, "", "", 0⟩ : ScheduleSlotCreate).order_index = 0 :=
  ⟨scheduleSlot_order_index.2.1 1 2 ⟨9, 0⟩ ⟨10, 0⟩ none none (some 3)
      ⟨1, 2, ⟨9, 0⟩, ⟨10, 0⟩, "", "", 3⟩ rfl,
   scheduleSlot_order_index.2.2.2.2.1 1 2 ⟨9, 0⟩ ⟨10, 0⟩ none none (-1) (by decide),
   scheduleSlot_order_index.2.2.2.2.2.2 1 2 ⟨9, 0⟩ ⟨10, 0⟩ none none
      ⟨1, 2, ⟨9, 0⟩, ⟨10, 0⟩, "", "", 0⟩ rfl⟩

/-- C5: `EventCreate(name="Elocution English", category="Elocution",
priority=5, average_time_minutes=20)` validates successfully, and the
`Event` persisted from it has `is_active = True` and a `created_at` filled
in by default, neither supplied by the caller. -/
theorem eventCreate_elocution_example :
    ∃ c : EventCreate,
      mkEventCreate "Elocution English" "Elocution" none (some 5) (some 20) none =
        .ok c
      ∧ ∀ id now, (Event.fromCreate c id now).is_active = true
          ∧ (Event.fromCreate c id now).created_at = now := by
  refine ⟨⟨"Elocution English", "Elocution", none, 5, 20, ""⟩, rfl, ?_⟩
  intro id now
  exact ⟨rfl, rfl⟩

/-- C7: no uniqueness invariant on `(student_id, event_id)` is enforced for
`EventParticipant`: two distinct records sharing the same pair are both
accepted without error, despite the comment announcing a unique
constraint. -/
theorem eventParticipant_duplicate_pair_accepted :
    mkEventParticipant (some 1) 7 9 1 0 = .ok ⟨some 1, 7, 9, 1, 0⟩
    ∧ mkEventParticipant (some 2) 7 9 1 0 = .ok ⟨some 2, 7, 9, 1, 0⟩
    ∧ (⟨some 1, 7, 9, 1, 0⟩ : EventParticipant) ≠ ⟨some 2, 7, 9, 1, 0⟩
    ∧ (⟨some 1, 7, 9, 1, 0⟩ : EventParticipant).student_id =
        (⟨some 2, 7, 9, 1, 0⟩ : EventParticipant).student_id
    ∧ (⟨some 1, 7, 9, 1, 0⟩ : EventParticipant).event_id =
        (⟨some 2, 7, 9, 1, 0⟩ : EventParticipant).event_id :=
  ⟨rfl, rfl, by decide, rfl, rfl⟩

/-- C10: no constraint relates `start_time` and `end_time`: a
`ScheduleSlotCreate` whose `end_time` (9:00) is strictly earlier than its
`start_time` (10:00) is accepted without error. -/
theorem scheduleSlotCreate_no_time_order :
    mkScheduleSlotCreate 1 2 ⟨10, 0⟩ ⟨9, 0⟩ none none none =
      .ok ⟨1, 2, ⟨10, 0⟩, ⟨9, 0⟩, "", "", 0⟩
    ∧ Time.toMinutes ⟨9, 0⟩ ≤ Time.toMinutes ⟨10, 0⟩ :=
  ⟨rfl, by decide⟩

/-- C6: applying a sparse Update shape (`AdminUpdate`, `StudentUpdate`,
`EventUpdate`, `ScheduleSlotUpdate`) changes only the fields it provides
(non-`None`): every omitted field, and every field the shape cannot carry,
keeps its previous value, and every provided field takes the provided
value. -/
theorem update_shapes_frame :
    (∀ (a : Admin) (u : AdminUpdate),
      (u.name = none → (applyAdminUpdate a u).name = a.name)
      ∧ (u.email = none → (applyAdminUpdate a u).email = a.email)
      ∧ (u.is_active = none → (applyAdminUpdate a u).is_active = a.is_active)
      ∧ (applyAdminUpdate a u).id = a.id
      ∧ (applyAdminUpdate a u).username = a.username
      ∧ (applyAdminUpdate a u).password_hash = a.password_hash
      ∧ (applyAdminUpdate a u).created_at = a.created_at
      ∧ (∀ v, u.name = some v → (applyAdminUpdate a u).name = v)
      ∧ (∀ v, u.email = some v → (applyAdminUpdate a u).email = v)
      ∧ (∀ v, u.is_active = some v → (applyAdminUpdate a u).is_active = v))
    ∧ (∀ (s : Student) (u : StudentUpdate),
      (u.name = none → (applyStudentUpdate s u).name = s.name)
      ∧ (u.class_name = none → (applyStudentUpdate s u).class_name = s.class_name)
      ∧ (u.category = none → (applyStudentUpdate s u).category = s.category)
      ∧ (u.is_active = none → (applyStudentUpdate s u).is_active = s.is_active)
      ∧ (applyStudentUpdate s u).id = s.id
      ∧ (applyStudentUpdate s u).created_at = s.created_at
      ∧ (∀ v, u.name = some v → (applyStudentUpdate s u).name = v)
      ∧ (∀ v, u.class_name = some v → (applyStudentUpdate s u).class_name = v)
      ∧ (∀ v, u.category = some v → (applyStudentUpdate s u).category = v)
      ∧ (∀ v, u.is_active = some v → (applyStudentUpdate s u).is_active = v))
    ∧ (∀ (e : Event) (u : EventUpdate),
      (u.name = none → (applyEventUpdate e u).name = e.name)
      ∧ (u.category = none → (applyEventUpdate e u).category = e.category)
      ∧ (u.max_participants = none →
          (applyEventUpdate e u).max_participants = e.max_participants)
      ∧ (u.priority = none → (applyEventUpdate e u).priority = e.priority)
      ∧ (u.average_time_minutes = none →
          (applyEventUpdate e u).average_time_minutes = e.average_time_minutes)
      ∧ (u.description = none → (applyEventUpdate e u).description = e.description)
      ∧ (u.is_active = none → (applyEventUpdate e u).is_active = e.is_active)
      ∧ (applyEventUpdate e u).id = e.id
      ∧ (applyEventUpdate e u).created_at = e.created_at
      ∧ (∀ v, u.name = some v → (applyEventUpdate e u).name = v)
      ∧ (∀ v, u.category = some v → (applyEventUpdate e u).category = v)
      ∧ (∀ v, u.max_participants = some v →
          (applyEventUpdate e u).max_participants = some v)
      ∧ (∀ v, u.priority = some v → (applyEventUpdate e u).priority = v)
      ∧ (∀ v, u.average_time_minutes = some v →
          (applyEventUpdate e u).average_time_minutes = v)
      ∧ (∀ v, u.description = some v → (applyEventUpdate e u).description = v)
      ∧ (∀ v, u.is_active = some v → (applyEventUpdate e u).is_active = v))
    ∧ (∀ (s : ScheduleSlot) (u : ScheduleSlotUpdate),
      (u.start_time = none → (applyScheduleSlotUpdate s u).start_time = s.start_time)
      ∧ (u.end_time = none → (applyScheduleSlotUpdate s u).end_time = s.end_time)
      ∧ (u.venue = none → (applyScheduleSlotUpdate s u).venue = s.venue)
      ∧ (u.notes = none → (applyScheduleSlotUpdate s u).notes = s.notes)
      ∧ (u.order_index = none →
          (applyScheduleSlotUpdate s u).order_index = s.order_index)
      ∧ (applyScheduleSlotUpdate s u).id = s.id
      ∧ (applyScheduleSlotUpdate s u).schedule_id = s.schedule_id
      ∧ (applyScheduleSlotUpdate s u).event_id = s.event_id
      ∧ (applyScheduleSlotUpdate s u).created_at = s.created_at
      ∧ (∀ v, u.start_time = some v → (applyScheduleSlotUpdate s u).start_time = v)
      ∧ (∀ v, u.end_time = some v → (applyScheduleSlotUpdate s u).end_time = v)
      ∧ (∀ v, u.venue = some v → (applyScheduleSlotUpdate s u).venue = v)
      ∧ (∀ v, u.notes = some v → (applyScheduleSlotUpdate s u).notes = v)
      ∧ (∀ v, u.order_index = some v →
          (applyScheduleSlotUpdate s u).order_index = v)) := by
  refine ⟨fun a u => ?_, fun s u => ?_, fun e u => ?_, fun s u => ?_⟩
  · exact ⟨fun h => by simp [applyAdminUpdate, h], fun h => by simp [applyAdminUpdate, h],
      fun h => by simp [applyAdminUpdate, h], rfl, rfl, rfl, rfl,
      fun v h => by simp [applyAdminUpdate, h], fun v h => by simp [applyAdminUpdate, h],
      fun v h => by simp [applyAdminUpdate, h]⟩
  · exact ⟨fun h => by simp [applyStudentUpdate, h], fun h => by simp [applyStudentUpdate, h],
      fun h => by simp [applyStudentUpdate, h], fun h => by simp [applyStudentUpdate, h],
      rfl, rfl,
      fun v h => by simp [applyStudentUpdate, h], fun v h => by simp [applyStudentUpdate, h],
      fun v h => by simp [applyStudentUpdate, h], fun v h => by simp [applyStudentUpdate, h]⟩
  · exact ⟨fun h => by simp [applyEventUpdate, h], fun h => by simp [applyEventUpdate, h],
      fun h => by simp [applyEventUpdate, h], fun h => by simp [applyEventUpdate, h],
      fun h => by simp [applyEventUpdate, h], fun h => by simp [applyEventUpdate, h],
      fun h => by simp [applyEventUpdate, h], rfl, rfl,
      fun v h => by simp [applyEventUpdate, h], fun v h => by simp [applyEventUpdate, h],
      fun v h => by simp [applyEventUpdate, h], fun v h => by simp [applyEventUpdate, h],
      fun v h => by simp [applyEventUpdate, h], fun v h => by simp [applyEventUpdate, h],
      fun v h => by simp [applyEventUpdate, h]⟩
  · exact ⟨fun h => by simp [applyScheduleSlotUpdate, h],
      fun h => by simp [applyScheduleSlotUpdate, h],
      fun h => by simp [applyScheduleSlotUpdate, h],
      fun h => by simp [applyScheduleSlotUpdate, h],
      fun h => by simp [applyScheduleSlotUpdate, h], rfl, rfl, rfl, rfl,
      fun v h => by simp [applyScheduleSlotUpdate, h],
      fun v h => by simp [applyScheduleSlotUpdate, h],
      fun v h => by simp [applyScheduleSlotUpdate, h],
      fun v h => by simp [applyScheduleSlotUpdate, h],
      fun v h => by simp [applyScheduleSlotUpdate, h]⟩

theorem update_shapes_frame_witness :
    (applyAdminUpdate ⟨some 1, "root", "hash", "Root", "root@x.io", true, 0⟩
      ⟨none, some "new@x.io", none⟩).name = "Root" :=
  (update_shapes_frame.1 ⟨some 1, "root", "hash", "Root", "root@x.io", true, 0⟩
    ⟨none, some "new@x.io", none⟩).1 rfl

end CulturalEvents
